import Mathlib

/-!
# Verification of the crash-platform backend round engine

Shallow embedding of `src/index.js` (three concatenated drafts of the same
backend) and proofs of the specification claims.

Conventions of the embedding:
* JS numbers are modelled as exact rationals (`ℚ`); the multiplier is kept
  to two decimals by the code itself (`toFixed(2)` after every mutation), so
  engine-side multipliers are also carried as integer cents (`ℕ`) where the
  tick loop is concerned.
* `x.toFixed(2)` followed by unary `+` is modelled as `toFixed2`, rounding to
  the nearest hundredth.
* The crypto primitives (`crypto.createHash`, `crypto.createHmac`) are external
  Node library calls, not code of this repository; they are carried as
  abstract function parameters `sha : String → String` and
  `hmac : String → String → String`.
* Fallible handlers return `Except String _`, the `String` being the error
  message the code sends in its `ERROR` reply; an error reply performs no
  mutation, which the embedding renders by returning no new state.
-/

namespace Crash

/-- Game phases of the round engine (`gameState` in the source:
`"WAITING"`, `"RUNNING"`, `"CRASHED"`). -/
inductive Phase where
  | WAITING
  | RUNNING
  | CRASHED
deriving DecidableEq, Repr

/-- `+(x).toFixed(2)`: round a number to two decimal places. -/
def toFixed2 (q : ℚ) : ℚ := (round (q * 100) : ℤ) / 100

/-- A guest session as initialised on connection in draft A:
`{ balance: 1000, activeBet: null, cashedOut: false }`.
`activeBet` is `null` (`none`) or the bet amount. -/
structure Session where
  balance : ℚ
  activeBet : Option ℚ
  cashedOut : Bool
deriving DecidableEq, Repr

/-- The session a fresh connection gets (`guestSessions[userId] = {...}`). -/
def initSession : Session := { balance := 1000, activeBet := none, cashedOut := false }

/-- JS truthiness of the `activeBet` field: `!session.activeBet` is true when
the field is `null` or `0`. -/
def betTruthy : Option ℚ → Bool
  | none => false
  | some a => a ≠ 0

/-- Draft A `PLACE_BET` branch of the websocket message handler
(src/index.js lines 99–124): phase guard, duplicate guard (`activeBet !== null`,
a strict null test), funds guard, then debit and record. -/
def placeBet (gameState : Phase) (s : Session) (amount : ℚ) : Except String Session :=
  if gameState ≠ Phase.WAITING then
    .error "Betting closed"
  else if s.activeBet ≠ none then
    .error "Already bet"
  else if s.balance < amount then
    .error "Insufficient balance"
  else
    .ok { balance := s.balance - amount, activeBet := some amount, cashedOut := false }

/-- Result payload of a successful cashout
(`CASHOUT_CONFIRMED{multiplier, win, balance}` plus the mutated session). -/
structure CashoutOk where
  session : Session
  multiplier : ℚ
  win : ℚ
deriving DecidableEq, Repr

/-- Draft A `CASHOUT` branch of the websocket message handler
(src/index.js lines 127–149): the single guard
`gameState !== "RUNNING" || !session.activeBet || session.cashedOut`
(note `!session.activeBet` is JS truthiness, so a zero bet fails it), then
`win = +(activeBet * currentMultiplier).toFixed(2)` credited to the balance. -/
def cashOut (gameState : Phase) (currentMultiplier : ℚ) (s : Session) :
    Except String CashoutOk :=
  if gameState = Phase.RUNNING ∧ betTruthy s.activeBet ∧ s.cashedOut = false then
    let amount := s.activeBet.getD 0
    let win := toFixed2 (amount * currentMultiplier)
    .ok { session := { s with cashedOut := true, balance := s.balance + win },
          multiplier := currentMultiplier,
          win := win }
  else
    .error "Cashout failed"

/-- Numeric value of one hex digit, as `parseInt(·, 16)` reads it (both
cases accepted). The hex strings fed to it in the source are SHA-256 HMAC
digests, always lowercase hex; a non-hex character contributes 0 here. -/
def hexDigitVal (c : Char) : ℕ :=
  let n := c.toNat
  if 48 ≤ n ∧ n ≤ 57 then n - 48
  else if 97 ≤ n ∧ n ≤ 102 then n - 97 + 10
  else if 65 ≤ n ∧ n ≤ 70 then n - 65 + 10
  else 0

/-- `parseInt(hmac.slice(0, 13), 16)`: the first 13 hex digits of a string
read as a base-16 integer. -/
def parseHex13 (s : String) : ℕ :=
  (s.toList.take 13).foldl (fun acc c => acc * 16 + hexDigitVal c) 0

/-- The crash-point arithmetic of draft A (src/index.js lines 44–62) as a
function of the parsed MAC value `X`:
`fair = 2^52 / (2^52 − X)`, `casino = fair * (1 − 0.04)`,
result `= Math.max(1, Math.floor(casino * 100) / 100)`. -/
def crashPointOfIntA (X : ℕ) : ℚ :=
  let max : ℚ := 2 ^ 52
  let fairMultiplier := max / (max - (X : ℚ))
  let casinoMultiplier := fairMultiplier * (1 - 4 / 100)
  Max.max 1 ((⌊casinoMultiplier * 100⌋ : ℤ) / 100)

/-- Draft A `calculateCrashPoint(serverSeed, clientSeed)` (lines 44–62), the
HMAC carried as the abstract parameter `hmac`. -/
def calculateCrashPointA (hmac : String → String → String)
    (serverSeed clientSeed : String) : ℚ :=
  crashPointOfIntA (parseHex13 (hmac serverSeed clientSeed))

/-- The crash-point arithmetic of draft B (src/index.js lines 318–324) as a
function of the parsed MAC value `X`:
`Math.max(1, Math.floor((max / (max - intVal)) * 100) / 100)` — no house edge. -/
def crashPointOfIntB (X : ℕ) : ℚ :=
  let max : ℚ := 2 ^ 52
  Max.max 1 ((⌊max / (max - (X : ℚ)) * 100⌋ : ℤ) / 100)

/-- Draft B `calculateCrashPoint(serverSeed, clientSeed)` (lines 318–324). -/
def calculateCrashPointB (hmac : String → String → String)
    (serverSeed clientSeed : String) : ℚ :=
  crashPointOfIntB (parseHex13 (hmac serverSeed clientSeed))

/-- Draft C `generateCrashPoint()` (src/index.js lines 590–592):
`Math.max(1.01, Number((Math.random() * 10).toFixed(2)))`, modelled as a
function of the random draw `r ∈ [0, 1)`. -/
def generateCrashPointC (r : ℚ) : ℚ :=
  Max.max (101 / 100) (toFixed2 (r * 10))

/-- The spec's crash-point formula:
`max(1.00, floor(100 * edgeFactor * 2^52 / (2^52 − X)) / 100)`. -/
def specCrashPoint (edgeFactor : ℚ) (X : ℕ) : ℚ :=
  Max.max 1 ((⌊100 * edgeFactor * 2 ^ 52 / (2 ^ 52 - (X : ℚ))⌋ : ℤ) / 100)

/-- Modelled from the spec: `verify(serverSeed, serverSeedHash, clientSeed,
crashPoint)` is described in §4.1 of the spec but absent from src/ (only the
pure functions it must reuse — `sha256`, `hmacSha256`, `calculateCrashPoint`
draft A — are there). Per the spec it "recomputes hash and crashPoint and
compares". -/
def verify (sha : String → String) (hmac : String → String → String)
    (serverSeed serverSeedHash clientSeed : String) (crashPoint : ℚ) : Bool :=
  sha serverSeed = serverSeedHash ∧ calculateCrashPointA hmac serverSeed clientSeed = crashPoint

/-- Modelled from the spec: `newRound(clientSeed)` (spec §4.1) packages the
same pure functions the round loop uses inline
(`serverSeed = generateServerSeed(); crashPoint = calculateCrashPoint(...)`,
hash published as `sha256(serverSeed)`): given the drawn secret it returns
`{serverSeed, serverSeedHash, crashPoint}`. -/
def newRound (sha : String → String) (hmac : String → String → String)
    (serverSeed clientSeed : String) : String × String × ℚ :=
  (serverSeed, sha serverSeed, calculateCrashPointA hmac serverSeed clientSeed)

/-- The constant client seed (`const clientSeed = "demo-client"` in both
drafts A and B). -/
def clientSeed : String := "demo-client"

/-- A broadcast event, as `broadcast({type: ...})` emits it. The `crash`
event's second field is the `serverSeed` payload when the draft includes one
(draft B sends `{crashPoint, serverSeed}`, draft A only `{crashPoint}`). -/
inductive Event where
  | state (s : Phase)
  | waitingTick (seconds : ℕ)
  | roundStart (serverSeedHash clientSeed : String)
  | multiplier (valueCents : ℕ)
  | crash (crashPoint : ℚ) (revealedSeed : Option String)
deriving DecidableEq, Repr

/-- The field of an event that the code fills from the `serverSeed` variable:
only the crash event's reveal field ever carries it. -/
def seedPayload : Event → Option String
  | .crash _ r => r
  | _ => none

/-- The phase announced by a `STATE` event, if any. -/
def phaseOf : Event → Option Phase
  | .state s => some s
  | _ => none

/-- `guestSessions[id].activeBet = null; guestSessions[id].cashedOut = false`
per session at round start (draft A, lines 167–170). -/
def resetSession (s : Session) : Session :=
  { s with activeBet := none, cashedOut := false }

/-- The multiplier values broadcast by the `RUNNING` tick loop
(`startCrash`, identical in drafts A and B, lines 218–231 and 405–418), in
integer cents: each tick does `currentMultiplier = +(currentMultiplier +
0.01).toFixed(2)`, broadcasts it, and stops the timer once
`currentMultiplier >= crashPoint`. `m` is the current multiplier in cents
(100 when the round starts), `cp` the crash point in cents. -/
def tickValues (m cp : ℕ) : List ℕ :=
  let m' := m + 1
  if cp ≤ m' then [m']
  else m' :: tickValues m' cp
termination_by cp - m
decreasing_by simp_all; omega

/-- `startCrash`: set `gameState = "RUNNING"`, broadcast it, then run the tick
loop to the crash point. -/
def startCrashEvents (crashCents : ℕ) : List Event :=
  Event.state Phase.RUNNING :: (tickValues 100 crashCents).map Event.multiplier

/-- Result of one `startNewRound` call: the events broadcast during the
call, whether `setTimeout(startCrash, 5000)` was reached, the resulting
`currentRoundId`, and the session table after the in-memory reset. -/
structure StartOutcome where
  events : List Event
  scheduledStartCrash : Bool
  currentRoundId : Option ℕ
  sessions : List (String × Session)
deriving DecidableEq, Repr

/-- Draft A `startNewRound` (src/index.js lines 163–216): reset every guest
session, reset the multiplier, enter WAITING, broadcast the countdown, insert
the round row (`insertRes` is the external store's reply: `some id` on
success, `none` on error — draft A only conditionally updates
`currentRoundId` and proceeds either way), broadcast `ROUND_START` with the
seed hash, and schedule `startCrash`. The 1-second countdown timer broadcasts
the remaining ticks concurrently with the awaited insert; the embedding
places them between the initial tick and `ROUND_START`. -/
def startNewRoundA (sha : String → String) (sessions : List (String × Session))
    (serverSeed : String) (insertRes : Option ℕ) (oldRoundId : Option ℕ) :
    StartOutcome :=
  { events := [Event.state Phase.WAITING, Event.waitingTick 5, Event.waitingTick 4,
               Event.waitingTick 3, Event.waitingTick 2, Event.waitingTick 1,
               Event.roundStart (sha serverSeed) clientSeed],
    scheduledStartCrash := true,
    currentRoundId := match insertRes with
      | some id => some id
      | none => oldRoundId,
    sessions := sessions.map fun p => (p.1, resetSession p.2) }

/-- Draft B `startNewRound` (src/index.js lines 339–403): like draft A with a
3-second countdown, but on an insert error it logs and `return`s — no
`ROUND_START` broadcast, no `setTimeout(startCrash)`, `currentRoundId`
untouched. (Draft B keeps bets in `activeBets`, reset to `{}`; the session
table field is reused for the per-user map there and is returned empty.) -/
def startNewRoundB (sha : String → String) (serverSeed : String)
    (insertRes : Option ℕ) (oldRoundId : Option ℕ) : StartOutcome :=
  let countdown := [Event.state Phase.WAITING, Event.waitingTick 3,
                    Event.waitingTick 2, Event.waitingTick 1]
  match insertRes with
  | none =>
    { events := countdown, scheduledStartCrash := false,
      currentRoundId := oldRoundId, sessions := [] }
  | some id =>
    { events := countdown ++ [Event.roundStart (sha serverSeed) clientSeed],
      scheduledStartCrash := true, currentRoundId := some id, sessions := [] }

/-- Result of one `handleCrash` call: the events broadcast and whether
`setTimeout(startNewRound, 3000)` was reached. -/
structure CrashOutcome where
  events : List Event
  scheduledNextRound : Bool
deriving DecidableEq, Repr

/-- Draft A `handleCrash` (src/index.js lines 233–248): enter CRASHED,
broadcast `STATE` and `CRASH{crashPoint}` (no seed reveal), fire the
round-close update (its result `_updateRes` is never inspected), schedule the
next round. -/
def handleCrashA (crashPoint : ℚ) (_updateRes : Option Unit) : CrashOutcome :=
  { events := [Event.state Phase.CRASHED, Event.crash crashPoint none],
    scheduledNextRound := true }

/-- Draft B `handleCrash` (src/index.js lines 420–438): enter CRASHED,
broadcast `STATE` and `CRASH{crashPoint, serverSeed}` — the seed reveal —
fire the round-close and bets updates (results never inspected), schedule
the next round. -/
def handleCrashB (crashPoint : ℚ) (serverSeed : String)
    (_updateRes _betsRes : Option Unit) : CrashOutcome :=
  { events := [Event.state Phase.CRASHED, Event.crash crashPoint (some serverSeed)],
    scheduledNextRound := true }

/-- Draft A events of one round up to (excluding) the crash transition: the
WAITING segment (`startNewRound`) followed by the RUNNING segment
(`startCrash` and its tick loop). -/
def preCrashEventsA (sha : String → String) (sessions : List (String × Session))
    (serverSeed : String) (insertRes oldRoundId : Option ℕ) (crashCents : ℕ) :
    List Event :=
  (startNewRoundA sha sessions serverSeed insertRes oldRoundId).events ++
    startCrashEvents crashCents

/-- Draft B events of one round up to (excluding) the crash transition,
assuming the round-insert succeeded (otherwise draft B never leaves WAITING). -/
def preCrashEventsB (sha : String → String) (serverSeed : String)
    (roundId : ℕ) (oldRoundId : Option ℕ) (crashCents : ℕ) : List Event :=
  (startNewRoundB sha serverSeed (some roundId) oldRoundId).events ++
    startCrashEvents crashCents

/-- Draft A events of one full round: WAITING segment, RUNNING segment, crash. -/
def fullRoundEventsA (sha : String → String) (sessions : List (String × Session))
    (serverSeed : String) (insertRes oldRoundId : Option ℕ) (crashCents : ℕ)
    (updateRes : Option Unit) : List Event :=
  preCrashEventsA sha sessions serverSeed insertRes oldRoundId crashCents ++
    (handleCrashA ((crashCents : ℚ) / 100) updateRes).events

/-- Draft B events of one full round (insert succeeded). -/
def fullRoundEventsB (sha : String → String) (serverSeed : String)
    (roundId : ℕ) (oldRoundId : Option ℕ) (crashCents : ℕ)
    (updateRes betsRes : Option Unit) : List Event :=
  preCrashEventsB sha serverSeed roundId oldRoundId crashCents ++
    (handleCrashB ((crashCents : ℚ) / 100) serverSeed updateRes betsRes).events

/-- One full draft A round followed by the start of the next round, which
`handleCrash` schedules: the event stream a client sees across the cycle
WAITING → RUNNING → CRASHED → WAITING. -/
def roundCycleEventsA (sha : String → String) (sessions sessions2 : List (String × Session))
    (seed seed2 : String) (ins ins2 old old2 : Option ℕ) (crashCents : ℕ)
    (upd : Option Unit) : List Event :=
  fullRoundEventsA sha sessions seed ins old crashCents upd ++
    (startNewRoundA sha sessions2 seed2 ins2 old2).events

/-- A session-level operation, tagged with the engine phase (and, for a
cashout, the multiplier) at which it is processed; `reset` is the per-session
clearing done by `startNewRound`. -/
inductive Op where
  | bet (phase : Phase) (amount : ℚ)
  | cash (phase : Phase) (multiplier : ℚ)
  | reset
deriving DecidableEq, Repr

/-- Apply one operation to a session; an error reply leaves the session
untouched (the handlers `return` before mutating anything). -/
def applyOp (s : Session) : Op → Session
  | .bet ph a =>
    match placeBet ph s a with
    | .ok s' => s'
    | .error _ => s
  | .cash ph m =>
    match cashOut ph m s with
    | .ok r => r.session
    | .error _ => s
  | .reset => resetSession s

/-- Run a sequence of operations against a session. -/
def runOps (s : Session) (ops : List Op) : Session :=
  ops.foldl applyOp s

/-- An operation the engine can actually deliver with a well-formed payload:
bet amounts are non-negative numbers and the running multiplier is
non-negative (in the engine it is always ≥ 1). -/
def OpValid : Op → Prop
  | .bet _ a => 0 ≤ a
  | .cash _ m => 0 ≤ m
  | .reset => True

instance : DecidablePred OpValid := fun op => by
  cases op <;> simp [OpValid] <;> infer_instance

/-- The ledger invariant: the balance is non-negative and the recorded bet
amount (0 when there is none) is non-negative. -/
def SessionInv (s : Session) : Prop :=
  0 ≤ s.balance ∧ 0 ≤ s.activeBet.getD 0

instance (s : Session) : Decidable (SessionInv s) := by
  unfold SessionInv; infer_instance

/-- Draft B `POST /bet` handler (src/index.js lines 463–517). External
collaborator replies are parameters: `existingBet` is `activeBets[userId]`
(an object is always truthy), `storeBalance` the balances row (`none` when
the select fails, which the code folds into "Insufficient balance" via
`!bal`), `insertOk` whether the bet insert succeeded. `!userId` is JS
truthiness of the id string. On success the store balance is set to
`bal - amount` and the active bet recorded. -/
def httpBet (gameState : Phase) (currentRoundId : Option ℕ) (userId : String)
    (amount : ℚ) (existingBet : Option (ℚ × Bool)) (storeBalance : Option ℚ)
    (insertOk : Bool) : Except String (ℚ × ℚ) :=
  if gameState ≠ Phase.WAITING then
    .error "Betting closed"
  else if currentRoundId = none then
    .error "Round not ready"
  else if userId = "" ∨ amount ≤ 0 then
    .error "Invalid bet"
  else if existingBet ≠ none then
    .error "Already bet"
  else
    match storeBalance with
    | none => .error "Insufficient balance"
    | some bal =>
      if bal < amount then .error "Insufficient balance"
      else if insertOk = false then .error "Bet insert failed"
      else .ok (bal - amount, amount)

/-! ## Helper lemmas -/

lemma hexDigitVal_lt (c : Char) : hexDigitVal c < 16 := by
  simp only [hexDigitVal]
  split_ifs <;> omega

lemma hexFoldl_lt (l : List Char) : ∀ acc : ℕ,
    l.foldl (fun acc c => acc * 16 + hexDigitVal c) acc < (acc + 1) * 16 ^ l.length := by
  induction l with
  | nil => intro acc; simp
  | cons c l ih =>
    intro acc
    have hd := hexDigitVal_lt c
    calc (c :: l).foldl (fun acc c => acc * 16 + hexDigitVal c) acc
        = l.foldl (fun acc c => acc * 16 + hexDigitVal c) (acc * 16 + hexDigitVal c) := rfl
      _ < (acc * 16 + hexDigitVal c + 1) * 16 ^ l.length := ih _
      _ ≤ (acc * 16 + 16) * 16 ^ l.length := Nat.mul_le_mul_right _ (by omega)
      _ = (acc + 1) * 16 ^ (c :: l).length := by
            rw [List.length_cons, pow_succ]; ring

lemma parseHex13_lt (s : String) : parseHex13 s < 2 ^ 52 := by
  have h := hexFoldl_lt (s.toList.take 13) 0
  have hlen : (s.toList.take 13).length ≤ 13 := by
    simp [List.length_take]
  calc parseHex13 s < (0 + 1) * 16 ^ (s.toList.take 13).length := h
    _ ≤ 16 ^ 13 := by simpa using Nat.pow_le_pow_right (by norm_num) hlen
    _ = 2 ^ 52 := by norm_num

lemma toFixed2_nonneg {q : ℚ} (hq : 0 ≤ q) : 0 ≤ toFixed2 q := by
  unfold toFixed2
  have h : (0 : ℤ) ≤ round (q * 100) := by
    rw [round_eq]
    exact Int.floor_nonneg.mpr (by positivity)
  have h' : (0 : ℚ) ≤ ((round (q * 100) : ℤ) : ℚ) := by exact_mod_cast h
  exact div_nonneg h' (by norm_num)

lemma crashPointOfIntA_eq_spec (X : ℕ) : crashPointOfIntA X = specCrashPoint (24 / 25) X := by
  simp only [crashPointOfIntA, specCrashPoint]
  have h : (2 ^ 52 : ℚ) / (2 ^ 52 - (X : ℚ)) * (1 - 4 / 100) * 100
      = 100 * (24 / 25) * 2 ^ 52 / (2 ^ 52 - (X : ℚ)) := by
    ring
  rw [h]

lemma crashPointOfIntB_eq_spec (X : ℕ) : crashPointOfIntB X = specCrashPoint 1 X := by
  simp only [crashPointOfIntB, specCrashPoint]
  have h : (2 ^ 52 : ℚ) / (2 ^ 52 - (X : ℚ)) * 100
      = 100 * 1 * 2 ^ 52 / (2 ^ 52 - (X : ℚ)) := by
    ring
  rw [h]

/-! ## Claims -/

/-- C4: the crash-point derivation equals the spec's formula
`max(1.00, floor(100 · edgeFactor · 2^52 / (2^52 − X)) / 100)` where `X` is the
first 13 hex digits of the MAC output read as an integer in `[0, 2^52)`: draft
A's `calculateCrashPoint` realises it with `edgeFactor = 24/25` (the 4% house
edge) and draft B's with `edgeFactor = 1`, both deterministic pure functions
of `(serverSeed, clientSeed)` once the MAC is fixed. -/
theorem C4_crash_point_formula_matches_spec (hmac : String → String → String)
    (serverSeed cseed : String) :
    calculateCrashPointA hmac serverSeed cseed
        = specCrashPoint (24 / 25) (parseHex13 (hmac serverSeed cseed)) ∧
    calculateCrashPointB hmac serverSeed cseed
        = specCrashPoint 1 (parseHex13 (hmac serverSeed cseed)) ∧
    parseHex13 (hmac serverSeed cseed) < 2 ^ 52 ∧
    (24 / 25 : ℚ) ≤ 1 :=
  ⟨crashPointOfIntA_eq_spec _, crashPointOfIntB_eq_spec _, parseHex13_lt _, by norm_num⟩

/-- Closed instance of C4 at a concrete MAC function and seeds. -/
theorem C4_witness :
    calculateCrashPointA (fun k m => k ++ m) "seed" "client"
        = specCrashPoint (24 / 25) (parseHex13 "seedclient") ∧
    calculateCrashPointB (fun k m => k ++ m) "seed" "client"
        = specCrashPoint 1 (parseHex13 "seedclient") ∧
    parseHex13 "seedclient" < 2 ^ 52 ∧
    (24 / 25 : ℚ) ≤ 1 :=
  C4_crash_point_formula_matches_spec (fun k m => k ++ m) "seed" "client"

/-- C5: for every MAC-prefix value `X < 2^52`, incl. the maximum `2^52 − 1`,
each draft's crash point is ≥ 1.00, the divisor `2^52 − X` is nonzero, and
draft C's random variant is also ≥ 1.00 for every draw. -/
theorem C5_crash_point_lower_bound (X : ℕ) (hX : X < 2 ^ 52) (r : ℚ) :
    1 ≤ crashPointOfIntA X ∧ 1 ≤ crashPointOfIntB X ∧ 1 ≤ generateCrashPointC r ∧
    (2 ^ 52 : ℚ) - (X : ℚ) ≠ 0 := by
  refine ⟨le_max_left _ _, le_max_left _ _, ?_, ?_⟩
  · exact le_trans (by norm_num) (le_max_left (101 / 100 : ℚ) (toFixed2 (r * 10)))
  · have hx : (X : ℚ) < 2 ^ 52 := by exact_mod_cast hX
    exact sub_ne_zero.mpr hx.ne'

/-- Closed instance of C5 at the maximum MAC prefix `X = 2^52 − 1`. -/
theorem C5_witness :
    1 ≤ crashPointOfIntA (2 ^ 52 - 1) ∧ 1 ≤ crashPointOfIntB (2 ^ 52 - 1) ∧
    1 ≤ generateCrashPointC (1 / 2) ∧
    (2 ^ 52 : ℚ) - ((2 ^ 52 - 1 : ℕ) : ℚ) ≠ 0 :=
  C5_crash_point_lower_bound (2 ^ 52 - 1) (by norm_num) (1 / 2)

/-- C6: commitment round trip — `verify` accepts the hash and crash point
that `newRound` computed from the same `serverSeed`/`clientSeed` with the
same pure functions, for every hash and MAC function. -/
theorem C6_verify_roundtrip (sha : String → String) (hmac : String → String → String)
    (serverSeed cseed : String) :
    verify sha hmac serverSeed (newRound sha hmac serverSeed cseed).2.1 cseed
      (newRound sha hmac serverSeed cseed).2.2 = true := by
  simp [verify, newRound]

/-- Closed instance of C6 at concrete hash and MAC functions and seeds. -/
theorem C6_witness :
    verify (fun s => s ++ "#") (fun k m => k ++ m) "seed"
      (newRound (fun s => s ++ "#") (fun k m => k ++ m) "seed" "client").2.1 "client"
      (newRound (fun s => s ++ "#") (fun k m => k ++ m) "seed" "client").2.2 = true :=
  C6_verify_roundtrip (fun s => s ++ "#") (fun k m => k ++ m) "seed" "client"

/-- C1 — counterexample to the claim as stated: a session whose `activeBet`
exists (`some 0`, recorded by an accepted zero-amount `PLACE_BET`) and is not
cashed out is nonetheless rejected by `CASHOUT` in RUNNING, because the guard
uses JS truthiness (`!session.activeBet`), not a null test. -/
theorem C1_counterexample :
    cashOut Phase.RUNNING (5 / 2)
      { balance := 1000, activeBet := some 0, cashedOut := false } =
      .error "Cashout failed" := by
  simp [cashOut, betTruthy]

/-- C1 (amended to nonzero bet amounts): for every session whose `activeBet`
exists with a nonzero amount and is not cashed out, `CASHOUT` in RUNNING
marks `cashedOut := true` and credits `win = toFixed2 (amount * multiplier)`,
and a second `CASHOUT` on the resulting session fails (the code's single
"Cashout failed" reply, the spec's `NoActiveBet` case) with no state change. -/
theorem C1_cashout_exactly_once (s : Session) (m m2 a : ℚ)
    (hbet : s.activeBet = some a) (ha : a ≠ 0) (hcash : s.cashedOut = false) :
    cashOut Phase.RUNNING m s =
      .ok { session := { s with cashedOut := true,
                                balance := s.balance + toFixed2 (a * m) },
            multiplier := m, win := toFixed2 (a * m) } ∧
    cashOut Phase.RUNNING m2
        { s with cashedOut := true, balance := s.balance + toFixed2 (a * m) } =
      .error "Cashout failed" := by
  constructor
  · simp [cashOut, betTruthy, hbet, ha, hcash]
  · simp [cashOut]

/-- Closed instance of C1: the spec's worked example — balance 1000, bet 200
placed in WAITING (leaving 800), cashout at multiplier 2.50 credits win 500
for a final balance 1300; a repeat cashout fails. -/
theorem C1_witness :
    placeBet Phase.WAITING initSession 200 =
      .ok { balance := 800, activeBet := some 200, cashedOut := false } ∧
    cashOut Phase.RUNNING (5 / 2)
        { balance := 800, activeBet := some 200, cashedOut := false } =
      .ok { session := { balance := 1300, activeBet := some 200, cashedOut := true },
            multiplier := 5 / 2, win := 500 } ∧
    cashOut Phase.RUNNING 3
        { balance := 1300, activeBet := some 200, cashedOut := true } =
      .error "Cashout failed" := by
  have h := C1_cashout_exactly_once
    { balance := 800, activeBet := some 200, cashedOut := false } (5 / 2) 3 200
    rfl (by norm_num) rfl
  have e : (800 : ℚ) + toFixed2 (200 * (5 / 2)) = 1300 := by
    simp [toFixed2]; norm_num [round_eq]
  refine ⟨by simp [placeBet, initSession]; norm_num, ?_, ?_⟩
  · rw [h.1]
    simp [e, toFixed2]
    norm_num [round_eq]
  · have h2 := h.2
    rw [e] at h2
    exact h2

/-- C2 — counterexample to the claim as stated: the websocket `PLACE_BET`
handler performs no amount validation, so a negative amount is accepted in
WAITING (crediting the balance) instead of failing with `InvalidAmount`. -/
theorem C2_counterexample :
    placeBet Phase.WAITING initSession (-5) =
      .ok { balance := 1005, activeBet := some (-5), cashedOut := false } := by
  simp [placeBet, initSession]
  norm_num

/-- C2 (amended: the websocket handler has no `InvalidAmount` check; only the
HTTP `/bet` handler rejects non-positive amounts): `PLACE_BET` fails with the
"Betting closed" reply outside WAITING, "Already bet" on a duplicate,
"Insufficient balance" when `balance < amount`; every failing call leaves the
session unchanged; success debits exactly `amount` and records the bet; and
`POST /bet` rejects `amount ≤ 0` with "Invalid bet". -/
theorem C2_place_bet_errors (ph : Phase) (s : Session) (a b : ℚ)
    (roundId : ℕ) (userId : String) (ex : Option (ℚ × Bool)) (bal : Option ℚ)
    (ins : Bool) :
    (ph ≠ Phase.WAITING → placeBet ph s a = .error "Betting closed") ∧
    (s.activeBet = some b → placeBet Phase.WAITING s a = .error "Already bet") ∧
    (s.activeBet = none → s.balance < a →
      placeBet Phase.WAITING s a = .error "Insufficient balance") ∧
    (s.activeBet = none → ¬s.balance < a →
      placeBet Phase.WAITING s a =
        .ok { balance := s.balance - a, activeBet := some a, cashedOut := false }) ∧
    (∀ e, placeBet ph s a = .error e → applyOp s (.bet ph a) = s) ∧
    (a ≤ 0 → httpBet Phase.WAITING (some roundId) userId a ex bal ins =
      .error "Invalid bet") := by
  refine ⟨?_, ?_, ?_, ?_, ?_, ?_⟩
  · intro h; simp [placeBet, h]
  · intro h; simp [placeBet, h]
  · intro h1 h2; simp [placeBet, h1, h2]
  · intro h1 h2; simp [placeBet, h1, h2]
  · intro e h; simp [applyOp, h]
  · intro h; simp [httpBet, h]

/-- Closed instance of C2 across its cases. -/
theorem C2_witness :
    placeBet Phase.RUNNING initSession 10 = .error "Betting closed" ∧
    placeBet Phase.WAITING
      { balance := 800, activeBet := some 200, cashedOut := false } 10 =
      .error "Already bet" ∧
    placeBet Phase.WAITING initSession 2000 = .error "Insufficient balance" ∧
    placeBet Phase.WAITING initSession 200 =
      .ok { balance := 800, activeBet := some 200, cashedOut := false } ∧
    applyOp initSession (.bet Phase.RUNNING 10) = initSession ∧
    httpBet Phase.WAITING (some 1) "alice" 0 none (some 100) true =
      .error "Invalid bet" := by
  refine ⟨?_, ?_, ?_, ?_, ?_, ?_⟩
  · exact (C2_place_bet_errors Phase.RUNNING initSession 10 0 1 "" none none true).1
      (by decide)
  · exact (C2_place_bet_errors Phase.WAITING
      { balance := 800, activeBet := some 200, cashedOut := false } 10 200 1 "" none
      none true).2.1 rfl
  · exact (C2_place_bet_errors Phase.WAITING initSession 2000 0 1 "" none none
      true).2.2.1 rfl (by norm_num [initSession])
  · have h := (C2_place_bet_errors Phase.WAITING initSession 200 0 1 "" none none
      true).2.2.2.1 rfl (by norm_num [initSession])
    rw [h]; norm_num [initSession]
  · exact (C2_place_bet_errors Phase.RUNNING initSession 10 0 1 "" none none
      true).2.2.2.2.1 "Betting closed"
      ((C2_place_bet_errors Phase.RUNNING initSession 10 0 1 "" none none true).1
        (by decide))
  · exact (C2_place_bet_errors Phase.WAITING initSession 0 0 1 "alice" none
      (some 100) true).2.2.2.2.2 le_rfl

/-- C10: amount-0 `PLACE_BET` is accepted in WAITING with no active bet and a
non-negative balance (there is no amount check; the funds guard `balance < 0`
cannot trip), leaving the balance unchanged and recording `activeBet = 0`;
and any `CASHOUT` for a session whose recorded bet is 0 is rejected exactly
as if no bet existed, because `!session.activeBet` is true for 0. -/
theorem C10_zero_bet_accepted_never_cashable (s s2 : Session) (m : ℚ)
    (hbet : s.activeBet = none) (hbal : 0 ≤ s.balance)
    (hbet2 : s2.activeBet = some 0) :
    placeBet Phase.WAITING s 0 =
      .ok { balance := s.balance, activeBet := some 0, cashedOut := false } ∧
    cashOut Phase.RUNNING m s2 = .error "Cashout failed" := by
  constructor
  · have h : ¬s.balance < 0 := not_lt.mpr hbal
    simp [placeBet, hbet, h]
  · simp [cashOut, betTruthy, hbet2]

/-- Closed instance of C10 on a fresh session. -/
theorem C10_witness :
    placeBet Phase.WAITING initSession 0 =
      .ok { balance := initSession.balance, activeBet := some 0, cashedOut := false } ∧
    cashOut Phase.RUNNING 2
      { balance := 1000, activeBet := some 0, cashedOut := false } =
      .error "Cashout failed" :=
  C10_zero_bet_accepted_never_cashable initSession
    { balance := 1000, activeBet := some 0, cashedOut := false } 2
    rfl (by norm_num [initSession]) rfl

lemma applyOp_inv {s : Session} {op : Op} (hs : SessionInv s) (hop : OpValid op) :
    SessionInv (applyOp s op) := by
  obtain ⟨hbal, hbet⟩ := hs
  cases op with
  | bet ph a =>
    have ha : (0 : ℚ) ≤ a := hop
    simp only [applyOp]
    split
    next s' heq =>
      unfold placeBet at heq
      split_ifs at heq with h1 h2 h3
      injection heq with h
      subst h
      have h4 : a ≤ s.balance := not_lt.mp h3
      exact ⟨by simpa using sub_nonneg.mpr h4, by simpa using ha⟩
    next e heq => exact ⟨hbal, hbet⟩
  | cash ph m =>
    have hm : (0 : ℚ) ≤ m := hop
    simp only [applyOp]
    split
    next r heq =>
      unfold cashOut at heq
      split_ifs at heq with h1
      injection heq with h
      subst h
      refine ⟨?_, by simpa using hbet⟩
      have hw : 0 ≤ toFixed2 (s.activeBet.getD 0 * m) :=
        toFixed2_nonneg (mul_nonneg hbet hm)
      simpa using add_nonneg hbal hw
    next e heq => exact ⟨hbal, hbet⟩
  | reset => exact ⟨hbal, by simp [applyOp, resetSession]⟩

lemma runOps_inv : ∀ (ops : List Op) (s : Session), SessionInv s →
    (∀ op ∈ ops, OpValid op) → SessionInv (runOps s ops) := by
  intro ops
  induction ops with
  | nil => intro s hs _; exact hs
  | cons op ops ih =>
    intro s hs hops
    have h1 : OpValid op := hops op (List.mem_cons_self _ _)
    have h2 : ∀ o ∈ ops, OpValid o := fun o ho => hops o (List.mem_cons_of_mem _ ho)
    simpa [runOps] using ih (applyOp s op) (applyOp_inv hs h1) h2

/-- C3 — counterexample to the claim as stated: because the websocket handler
never validates the amount, a negative bet is accepted (crediting the
balance), and cashing it out debits `amount × multiplier`, driving the
balance negative: balance 1000, bet −100000 in WAITING, cashout at
multiplier 2 leaves balance −99000. -/
theorem C3_counterexample :
    (runOps initSession
      [Op.bet Phase.WAITING (-100000), Op.cash Phase.RUNNING 2]).balance < 0 := by
  simp [runOps, applyOp, placeBet, cashOut, betTruthy, initSession, toFixed2, round_eq]
  norm_num

/-- C3 (amended to well-formed inputs): for every session satisfying the
ledger invariant and every sequence of bet, cashout and round-reset
operations whose bet amounts and multipliers are non-negative, the balance
never becomes negative (and the invariant is preserved). -/
theorem C3_balance_nonneg_invariant (s : Session) (ops : List Op)
    (hs : SessionInv s) (hops : ∀ op ∈ ops, OpValid op) :
    0 ≤ (runOps s ops).balance ∧ SessionInv (runOps s ops) :=
  ⟨(runOps_inv ops s hs hops).1, runOps_inv ops s hs hops⟩

/-- Closed instance of C3 on a fresh session and a bet–cashout–reset round. -/
theorem C3_witness :
    0 ≤ (runOps initSession
        [Op.bet Phase.WAITING 200, Op.cash Phase.RUNNING 2, Op.reset]).balance ∧
    SessionInv (runOps initSession
        [Op.bet Phase.WAITING 200, Op.cash Phase.RUNNING 2, Op.reset]) :=
  C3_balance_nonneg_invariant initSession
    [Op.bet Phase.WAITING 200, Op.cash Phase.RUNNING 2, Op.reset]
    (by decide) (by decide)

/-- C7 — counterexample to the claim as stated: draft A's crash transition
broadcasts only `STATE` and `CRASH{crashPoint}` — the reveal field is empty,
so no crash event carrying `serverSeed` is ever sent. -/
theorem C7_counterexample :
    (handleCrashA 2 none).events = [Event.state Phase.CRASHED, Event.crash 2 none] :=
  rfl

/-- C7 (amended: the reveal happens in draft B only; draft A never reveals):
both drafts broadcast `ROUND_START` with the seed hash during WAITING, no
event up to the crash transition carries the `serverSeed` payload, draft B's
crash broadcast carries it, and draft A's does not. -/
theorem C7_commit_reveal_ordering (sha : String → String)
    (sessions : List (String × Session)) (seed : String) (ins old : Option ℕ)
    (rid : ℕ) (old2 : Option ℕ) (cc : ℕ) (u b : Option Unit) :
    Event.roundStart (sha seed) clientSeed ∈
      (startNewRoundA sha sessions seed ins old).events ∧
    Event.roundStart (sha seed) clientSeed ∈
      (startNewRoundB sha seed (some rid) old2).events ∧
    (∀ e ∈ preCrashEventsA sha sessions seed ins old cc, seedPayload e = none) ∧
    (∀ e ∈ preCrashEventsB sha seed rid old2 cc, seedPayload e = none) ∧
    (∃ e ∈ (handleCrashB ((cc : ℚ) / 100) seed u b).events,
      seedPayload e = some seed) ∧
    (∀ e ∈ (handleCrashA ((cc : ℚ) / 100) u).events, seedPayload e = none) := by
  refine ⟨?_, ?_, ?_, ?_, ?_, ?_⟩
  · simp [startNewRoundA]
  · simp [startNewRoundB]
  · simp [preCrashEventsA, startNewRoundA, startCrashEvents, List.forall_mem_append,
      List.forall_mem_cons, List.forall_mem_map, seedPayload]
  · simp [preCrashEventsB, startNewRoundB, startCrashEvents, List.forall_mem_append,
      List.forall_mem_cons, List.forall_mem_map, seedPayload]
  · exact ⟨Event.crash ((cc : ℚ) / 100) (some seed), by simp [handleCrashB], rfl⟩
  · simp [handleCrashA, List.forall_mem_cons, seedPayload]

/-- Closed instance of C7 at concrete hash, seed, sessions and crash point. -/
theorem C7_witness :
    Event.roundStart ((fun s => s ++ "#") "x") clientSeed ∈
      (startNewRoundA (fun s => s ++ "#") [] "x" none none).events ∧
    Event.roundStart ((fun s => s ++ "#") "x") clientSeed ∈
      (startNewRoundB (fun s => s ++ "#") "x" (some 7) none).events ∧
    (∀ e ∈ preCrashEventsA (fun s => s ++ "#") [] "x" none none 150,
      seedPayload e = none) ∧
    (∀ e ∈ preCrashEventsB (fun s => s ++ "#") "x" 7 none 150,
      seedPayload e = none) ∧
    (∃ e ∈ (handleCrashB ((150 : ℚ) / 100) "x" none none).events,
      seedPayload e = some "x") ∧
    (∀ e ∈ (handleCrashA ((150 : ℚ) / 100) none).events, seedPayload e = none) :=
  C7_commit_reveal_ordering (fun s => s ++ "#") [] "x" none none 7 none 150 none none

lemma tickValues_eq_range (m cp : ℕ) :
    tickValues m cp = List.range' (m + 1) (Max.max 1 (cp - m)) := by
  rw [tickValues]
  by_cases h : cp ≤ m + 1
  · rw [if_pos h]
    have h1 : Max.max 1 (cp - m) = 1 := by omega
    rw [h1]
    simp [List.range']
  · rw [if_neg h, tickValues_eq_range (m + 1) cp]
    have h1 : Max.max 1 (cp - m) = (cp - (m + 1)) + 1 := by omega
    have h2 : Max.max 1 (cp - (m + 1)) = cp - (m + 1) := by omega
    rw [h1, h2, List.range'_succ]
termination_by cp - m
decreasing_by omega

lemma filterMap_phaseOf_multiplier (l : List ℕ) :
    (l.map Event.multiplier).filterMap phaseOf = [] := by
  induction l with
  | nil => rfl
  | cons v l ih => simp [phaseOf, ih]

/-- C8: the round cycle is unconditionally periodic — for every crash point
(in cents, ≥ 100 i.e. ≥ 1.00, including the instant crash 100), the phase
broadcasts across one full cycle are exactly WAITING, RUNNING, CRASHED,
WAITING; and the RUNNING tick loop, which raises the multiplier by one cent
per tick, terminates after exactly `max 1 (cp − 100)` ticks, broadcasting the
consecutive cent values from 101. -/
theorem C8_round_cycle_periodic (sha : String → String)
    (sessions sessions2 : List (String × Session)) (seed seed2 : String)
    (ins ins2 old old2 : Option ℕ) (cc : ℕ) (u : Option Unit) (hcc : 100 ≤ cc) :
    (roundCycleEventsA sha sessions sessions2 seed seed2 ins ins2 old old2 cc
        u).filterMap phaseOf
      = [Phase.WAITING, Phase.RUNNING, Phase.CRASHED, Phase.WAITING] ∧
    tickValues 100 cc = List.range' 101 (Max.max 1 (cc - 100)) ∧
    (tickValues 100 cc).length = Max.max 1 (cc - 100) := by
  refine ⟨?_, tickValues_eq_range 100 cc, ?_⟩
  · simp [roundCycleEventsA, fullRoundEventsA, preCrashEventsA, startNewRoundA,
      startCrashEvents, handleCrashA, phaseOf, List.filterMap_cons,
      List.filterMap_append, filterMap_phaseOf_multiplier]
  · rw [tickValues_eq_range]
    simp

/-- Closed instance of C8 at the instant-crash minimum `crashPoint = 1.00`. -/
theorem C8_witness :
    (roundCycleEventsA (fun s => s ++ "#") [] [] "x" "y" none none none none 100
        none).filterMap phaseOf
      = [Phase.WAITING, Phase.RUNNING, Phase.CRASHED, Phase.WAITING] ∧
    tickValues 100 100 = List.range' 101 (Max.max 1 (100 - 100)) ∧
    (tickValues 100 100).length = Max.max 1 (100 - 100) :=
  C8_round_cycle_periodic (fun s => s ++ "#") [] [] "x" "y" none none none none
    100 none le_rfl

/-- C9 — counterexample to the claim as stated: in draft B a failed round
insert aborts `startNewRound` before `setTimeout(startCrash, 5000)`, so the
WAITING→RUNNING transition (and everything after it) never occurs. -/
theorem C9_counterexample :
    (startNewRoundB (fun s => s) "seed" none none).scheduledStartCrash = false :=
  rfl

/-- C9 (amended: draft A proceeds on persistence failure, draft B halts on a
round-insert failure): draft A's `startNewRound` broadcasts the same events,
still schedules `startCrash`, and resets the same sessions whether the insert
failed or not; `handleCrash` in both drafts ignores the round-update outcome
and always schedules the next round; but draft B's `startNewRound` on insert
failure schedules nothing and never broadcasts `ROUND_START`. -/
theorem C9_persistence_failure_semantics (sha : String → String)
    (sessions : List (String × Session)) (seed : String) (id0 : ℕ)
    (old : Option ℕ) (cp : ℚ) (u u2 b : Option Unit) :
    (startNewRoundA sha sessions seed none old).events
        = (startNewRoundA sha sessions seed (some id0) old).events ∧
    (startNewRoundA sha sessions seed none old).scheduledStartCrash = true ∧
    Event.roundStart (sha seed) clientSeed ∈
      (startNewRoundA sha sessions seed none old).events ∧
    (startNewRoundA sha sessions seed none old).sessions
        = (startNewRoundA sha sessions seed (some id0) old).sessions ∧
    handleCrashA cp u = handleCrashA cp u2 ∧
    (handleCrashA cp u).scheduledNextRound = true ∧
    (handleCrashB cp seed u b).scheduledNextRound = true ∧
    (startNewRoundB sha seed none old).scheduledStartCrash = false ∧
    Event.roundStart (sha seed) clientSeed ∉
      (startNewRoundB sha seed none old).events := by
  refine ⟨rfl, rfl, by simp [startNewRoundA], rfl, rfl, rfl, rfl, rfl, ?_⟩
  simp [startNewRoundB]

/-- Closed instance of C9 at concrete hash, seed and crash point. -/
theorem C9_witness :
    (startNewRoundA (fun s => s) [] "seed" none none).events
        = (startNewRoundA (fun s => s) [] "seed" (some 7) none).events ∧
    (startNewRoundA (fun s => s) [] "seed" none none).scheduledStartCrash = true ∧
    Event.roundStart ((fun s => s) "seed") clientSeed ∈
      (startNewRoundA (fun s => s) [] "seed" none none).events ∧
    (startNewRoundA (fun s => s) [] "seed" none none).sessions
        = (startNewRoundA (fun s => s) [] "seed" (some 7) none).sessions ∧
    handleCrashA 2 none = handleCrashA 2 (some ()) ∧
    (handleCrashA 2 none).scheduledNextRound = true ∧
    (handleCrashB 2 "seed" none none).scheduledNextRound = true ∧
    (startNewRoundB (fun s => s) "seed" none none).scheduledStartCrash = false ∧
    Event.roundStart ((fun s => s) "seed") clientSeed ∉
      (startNewRoundB (fun s => s) "seed" none none).events :=
  C9_persistence_failure_semantics (fun s => s) [] "seed" 7 none 2 none (some ()) none

end Crash
